import Mathlib

/-!
Verification development for the deepseek-scrapper repository.

The embedding below models the page-interaction automaton of
`src/core/chat_handler.py` (selector resolution, message submission, streamed
response completion detection, reply extraction), the persistence operations of
`src/core/data_manager.py` over an in-memory relational state, and the
handler-pool concurrency discipline of the `/chat` endpoints in `src/main.py`
and `src/api_main.py`.

A fixed DOM snapshot is modelled as boolean visibility of selectors plus the
observations the code reads back (textarea value after Enter, query results).
Time is modelled in seconds: the completion-detection loop sleeps 2 seconds
before its first check and 1 second between checks, exactly as the source does,
so check number k happens at elapsed time 2 + k seconds.
-/

namespace DeepSeekScrapper

/-! ### Selector data (chat_handler.py, lines 9-28 and the inline lists) -/

/-- chat_handler.py line 28: the XPath for the input textarea when a
conversation already has turns. -/
def xpath_input_active : String :=
  "xpath=//*[@id=\"root\"]/div[1]/div[1]/div[2]/div[3]/div[1]/div[2]/div[1]/div[2]/div[2]/div[2]/div[1]/div[1]/div[1]/textarea[1]"

/-- chat_handler.py line 27: the XPath for the input textarea on an empty
conversation page. -/
def xpath_input_initial : String :=
  "xpath=//*[@id=\"root\"]/div[1]/div[1]/div[2]/div[3]/div[1]/div[1]/div[2]/div[2]/div[1]/div[1]/div[1]/textarea[1]"

/-- chat_handler.py lines 34-41: the ordered candidate list for the message
input element probed by send_message. -/
def input_selectors : List String :=
  [xpath_input_active,
   xpath_input_initial,
   "xpath=//textarea[@id=\x27chat-input\x27]",
   "textarea#chat-input",
   "textarea[placeholder*=\x27chat\x27]",
   "textarea"]

/-- chat_handler.py lines 107-119: the ordered candidate list for the
send-affordance clicked when the commit keypress did not clear the input. -/
def send_selectors : List String :=
  ["xpath=//*[@id=\"root\"]/div[1]/div[1]/div[2]/div[3]/div[1]/div[1]/div[2]/div[2]/div[1]/div[1]/div[2]/div[3]/div[2]/div[1]/div[2]/svg[1]",
   "xpath=//*[@id=\"root\"]/div[1]/div[1]/div[2]/div[3]/div[1]/div[2]/div[1]/div[2]/div[2]/div[2]/div[1]/div[1]/div[2]/div[3]/div[2]/div[1]/div[1]",
   "xpath=//*[@id=\"root\"]/div[1]/div[1]/div[2]/div[3]/div[1]/div[1]/div[2]/div[2]/div[1]/div[1]/div[2]/div[3]/div[2]/div[1]/div[1]",
   "div[role=\x27button\x27][aria-disabled=\x27false\x27]",
   "div.ds-icon-button:not(.ds-icon-button--disabled)",
   "xpath=//div[@role=\x27button\x27 and @aria-disabled=\x27false\x27]",
   ".ds-icon-send"]

/-- chat_handler.py line 14: the liveness indicator selector consulted by
wait_for_response (a visible stop-generating control means still generating). -/
def is_generating_selector : String :=
  ".ds-stop-button, .ds-icon-stop, button:has(.ds-icon-stop)"

/-- chat_handler.py line 13: the markdown content selector used by
get_latest_response. -/
def message_list_selector : String := ".ds-markdown.ds-markdown--block"

/-- Python's `str.strip()`: drop whitespace from both ends (kernel-computable
rendering used wherever the source calls `.strip()`). -/
def pyStrip (s : String) : String :=
  String.mk
    (((s.data.dropWhile Char.isWhitespace).reverse.dropWhile
      Char.isWhitespace).reverse)

/-- Python's `str.lower()` (kernel-computable rendering used where the source
calls `.lower()`). -/
def pyLower (s : String) : String := String.mk (s.data.map Char.toLower)

/-! ### Selector resolution (chat_handler.py lines 43-55 and 121-128) -/

/-- The input-resolution loop of send_message (lines 43-51): probe candidates
strictly in list order (each probe is bounded by a 2000 ms visibility wait,
which on a fixed DOM snapshot is the boolean `visible`), skipping falsy
(empty) entries, and return the first candidate that is visible. -/
def resolveFirst (visible : String → Bool) : List String → Option String
  | [] => none
  | s :: rest =>
    if s = "" then resolveFirst visible rest
    else if visible s then some s else resolveFirst visible rest

/-- The send-affordance resolution loop of send_message (lines 121-128): probe
candidates in list order (1500 ms visibility wait per candidate) and return the
first visible one. -/
def resolveSend (visible : String → Bool) : List String → Option String
  | [] => none
  | s :: rest => if visible s then some s else resolveSend visible rest

/-! ### Message submission (chat_handler.py lines 30-140) -/

/-- A fixed snapshot of the page as observed by send_message: which selectors
are visible, the textarea value read back after the Enter keypress (none models
the `eval_on_selector` call raising because the textarea is gone, which the
code treats as "message sent"), whether a file-upload input exists, and which
file paths exist on disk (`os.path.exists`, consulted at submission time). -/
structure SendPage where
  visible : String → Bool
  valueAfterEnter : Option String
  fileInputPresent : Bool
  fileExists : String → Bool
  uploadIndicatorAppears : Bool

/-- The observable outcome of one send_message call: the returned boolean and
the externally visible actions the call performed. -/
structure SendResult where
  ok : Bool
  typed : Option String
  uploaded : Bool
  clickedSend : Bool
  inputUsed : Option String
  deriving Repr, DecidableEq

/-- Embedding of DeepSeekChatHandler.send_message (lines 30-140).  The input
is resolved over `input_selectors`; on failure the call returns false (line
55).  Otherwise the message is typed (lines 59-61), the attachment is uploaded
only if `os.path.exists` succeeds and a file input is found (lines 65-90),
Enter is pressed, and if the read-back textarea value is non-empty after
stripping, a send affordance is resolved over `send_selectors` and clicked
with any click failure swallowed (lines 105-134); the call then returns true
(line 137) regardless of whether any acceptance signal was observed. -/
def send_message (pg : SendPage) (message : String) (image_path : Option String) :
    SendResult :=
  match resolveFirst pg.visible input_selectors with
  | none =>
    { ok := false, typed := none, uploaded := false, clickedSend := false,
      inputUsed := none }
  | some target =>
    let uploaded :=
      match image_path with
      | none => false
      | some p => pg.fileExists p && pg.fileInputPresent
    let textareaVal := pg.valueAfterEnter.getD ""
    let clickedSend :=
      if 0 < (pyStrip textareaVal).length then
        (resolveSend pg.visible send_selectors).isSome
      else false
    { ok := true, typed := some message, uploaded := uploaded,
      clickedSend := clickedSend, inputUsed := some target }

/-- The CLI input gate of run_chat_mode (main.py lines 337-345): the raw line
is stripped; a line equal to an exit word ends the loop, an empty stripped
line is skipped, and only otherwise is the message submitted.  Returns the
message actually passed on to send_message, if any. -/
def cliSubmits (raw : String) : Option String :=
  let user_message := pyStrip raw
  if pyLower user_message = "exit" ∨ pyLower user_message = "quit" ∨
      pyLower user_message = "keluar" then none
  else if user_message = "" then none
  else some user_message

/-! ### Completion detection (chat_handler.py lines 142-178)

The poll trace is a pair of functions of the check index k (the check at
elapsed time 2 + k seconds): `gen k` is `page.is_visible(is_generating)` and
`txt k` is `self.get_latest_response() or ""` at that tick. -/

/-- How one wait_for_response call ended: the while condition exhausted the
timeout budget, or a break declared completion. -/
inductive WaitExit where
  | timedOut
  | completed
  deriving Repr, DecidableEq

/-- The observable outcome of wait_for_response: the returned boolean and the
elapsed whole seconds at which the call returned. -/
structure WaitOutcome where
  retval : Bool
  exitKind : WaitExit
  elapsedS : Nat
  deriving Repr, DecidableEq

/-- The polling loop of wait_for_response (lines 153-172), one constructor
case per remaining-fuel value; the fuel only bounds recursion depth and is
chosen large enough (see wait_for_response) that the 0 case is never reached
before the while condition fails.  State: check index k, `last_text`,
`stable_count`.  The while condition `elapsed < timeout/1000` is
`(2+k)*1000 < timeoutMs` exactly.  While the liveness indicator is visible the
loop just sleeps (counters kept).  Once it is absent: without stability
checking the loop breaks at once; with it, a non-empty text equal to
`last_text` increments `stable_count` (breaking when it reaches 2), anything
else resets the counter and remembers the current text. -/
def waitLoop (gen : Nat → Bool) (txt : Nat → String) (stability : Bool)
    (timeoutMs : Nat) : Nat → Nat → String → Nat → WaitExit × Nat
  | 0, k, _, _ => (WaitExit.timedOut, 2 + k)
  | fuel + 1, k, last_text, stable_count =>
    if (2 + k) * 1000 < timeoutMs then
      if gen k then
        waitLoop gen txt stability timeoutMs fuel (k + 1) last_text stable_count
      else if stability = false then (WaitExit.completed, 2 + k)
      else if txt k ≠ "" ∧ txt k = last_text then
        if 2 ≤ stable_count + 1 then (WaitExit.completed, 2 + k)
        else waitLoop gen txt stability timeoutMs fuel (k + 1) last_text
          (stable_count + 1)
      else waitLoop gen txt stability timeoutMs fuel (k + 1) (txt k) 0
    else (WaitExit.timedOut, 2 + k)

/-- Embedding of DeepSeekChatHandler.wait_for_response (lines 142-178): after
the 2 second grace sleep the loop polls once per second starting from
`last_text = ""` and `stable_count = 0`; both loop exits flow to the final
`return True` (line 175), so the returned value is true on completion and on
timeout alike (only the exception path, outside this model, returns false).
Fuel `timeoutMs` is sufficient: the while condition forces k < timeoutMs. -/
def wait_for_response (gen : Nat → Bool) (txt : Nat → String)
    (timeoutMs : Nat) (stability : Bool) : WaitOutcome :=
  let r := waitLoop gen txt stability timeoutMs timeoutMs 0 "" 0
  { retval := true, exitKind := r.1, elapsedS := r.2 }

/-! ### Response extraction (chat_handler.py lines 180-222) -/

/-- The nested content element found at `./div[1]/div[1]` inside a bubble:
its own rendered text and, when a `.ds-markdown.ds-markdown--block` descendant
exists, that descendant's text. -/
structure ContentNode where
  innerText : String
  markdownText : Option String
  deriving Repr, DecidableEq

/-- One message-bubble element as observed by get_latest_response: its full
rendered text, the optional nested content child at `./div[1]/div[1]`, and the
optional `.ds-markdown.ds-markdown--block` descendant queried on the bubble
itself. -/
structure Bubble where
  innerText : String
  contentChild : Option ContentNode
  markdownText : Option String
  deriving Repr, DecidableEq

/-- chat_handler.py line 20: the base XPath under which message bubbles are
the direct `div` children. -/
def base_message_xpath : String :=
  "//*[@id=\"root\"]/div[1]/div[1]/div[2]/div[3]/div[1]/div[2]/div[1]/div[2]/div[1]"

/-- The primary structural query of get_latest_response (line 184). -/
def primaryBubbleQuery : String := "xpath=" ++ base_message_xpath ++ "/div"

/-- chat_handler.py lines 188-192: the ordered alternative container queries
tried when the primary query yields no bubbles. -/
def alternative_containers : List String :=
  ["xpath=//div[contains(@class, \x27chat-container\x27)]//div[contains(@class, \x27message\x27)]",
   "xpath=//div[contains(@class, \x27ds-markdown\x27)]/ancestor::div[1]",
   message_list_selector]

/-- The for-break loop over alternative containers (lines 193-195): query each
selector in order and keep the first non-empty result (empty if all fail). -/
def firstNonEmptyQuery (q : String → List Bubble) : List String → List Bubble
  | [] => []
  | s :: rest =>
    let bs := q s
    if bs.isEmpty then firstNonEmptyQuery q rest else bs

/-- Embedding of DeepSeekChatHandler.get_latest_response (lines 180-222) over
a fixed DOM snapshot `q` mapping a selector to its matched bubbles.  Primary
query first; alternatives in order only if it was empty; none if no container
matched at all (line 198); otherwise the last bubble is taken and its text is
extracted — nested content child first (preferring the markdown descendant
inside it, lines 204-210), then a markdown descendant of the bubble itself
(lines 214-216), then the bubble's own full text (line 218), each stripped. -/
def get_latest_response (q : String → List Bubble) : Option String :=
  let bubbles := q primaryBubbleQuery
  let bubbles :=
    if bubbles.isEmpty then firstNonEmptyQuery q alternative_containers
    else bubbles
  match bubbles.getLast? with
  | none => none
  | some last_bubble =>
    match last_bubble.contentChild with
    | some content =>
      match content.markdownText with
      | some m => some (pyStrip m)
      | none => some (pyStrip content.innerText)
    | none =>
      match last_bubble.markdownText with
      | some m => some (pyStrip m)
      | none => some (pyStrip last_bubble.innerText)

/-- Claim-side description of the per-bubble extraction (steps 3 and 4 of the
spec algorithm, amended): nested content child first (its markdown descendant's
text if present, else its text), then the bubble's own markdown descendant,
then the bubble's full text, stripped. -/
def bubbleExtract (b : Bubble) : String :=
  match b.contentChild with
  | some content => pyStrip (content.markdownText.getD content.innerText)
  | none => pyStrip (b.markdownText.getD b.innerText)

/-! ### Persistence (core/data_manager.py over core/models.py) -/

/-- A row of the sessions table (models.py lines 18-30), restricted to the
columns data_manager.py reads or writes. -/
structure SessionRow where
  id : String
  session_id : String
  account_email : Option String
  deriving Repr, DecidableEq

/-- A row of the chats table (models.py lines 32-44). -/
structure ChatRow where
  id : String
  chat_id : String
  session_id : String
  account_email : Option String
  title : Option String
  deriving Repr, DecidableEq

/-- A row of the messages table (models.py lines 46-56); `chat_id` is the
foreign key onto `chats.id`. -/
structure MessageRow where
  id : String
  chat_id : String
  role : String
  content : String
  image_url : Option String
  deriving Repr, DecidableEq

/-- The relational state operated on by DataManager. -/
structure DB where
  sessions : List SessionRow
  chats : List ChatRow
  messages : List MessageRow
  deriving Repr, DecidableEq

/-- Python truthiness of an optional string column: None and the empty string
are falsy. -/
def truthyOpt (o : Option String) : Bool := o.getD "" != ""

/-- Python `a or b` on optional string values. -/
def pyOr (a b : Option String) : Option String := if truthyOpt a then a else b

/-- The ensure-session block of save_chat_message (data_manager.py lines
55-67): look the session row up by session_id; if absent, create and flush it
(carrying the supplied account email); if present with no truthy account
email while one was supplied, fill it in.  Returns the updated table and the
row the rest of the call works with (`db_sess`). -/
def ensure_session (sessions : List SessionRow)
    (freshId session_id : String) (account_email : Option String) :
    List SessionRow × SessionRow :=
  match sessions.find? (fun s => s.session_id == session_id) with
  | none =>
    let s : SessionRow :=
      { id := freshId, session_id := session_id,
        account_email := account_email }
    (sessions ++ [s], s)
  | some s =>
    if truthyOpt account_email && !truthyOpt s.account_email then
      let s2 : SessionRow := { s with account_email := account_email }
      (sessions.map (fun (t : SessionRow) => if t.id == s.id then s2 else t),
        s2)
    else (sessions, s)

/-- The ensure-chat block of save_chat_message (data_manager.py lines 72-83):
look the chat row up by `chat_id == cid or id == cid`; if absent, create and
flush it; if present with no truthy account email while `final_email` is
truthy, fill it in.  Returns the updated table and the row the message will
reference (`db_chat`). -/
def ensure_chat (chats : List ChatRow)
    (freshId chat_id session_id : String) (final_email : Option String) :
    List ChatRow × ChatRow :=
  match chats.find? (fun c => c.chat_id == chat_id || c.id == chat_id) with
  | none =>
    let c : ChatRow :=
      { id := freshId, chat_id := chat_id, session_id := session_id,
        account_email := final_email, title := none }
    (chats ++ [c], c)
  | some c =>
    if truthyOpt final_email && !truthyOpt c.account_email then
      let c2 : ChatRow := { c with account_email := final_email }
      (chats.map (fun (t : ChatRow) => if t.id == c.id then c2 else t), c2)
    else (chats, c)

/-- Embedding of DataManager.save_chat_message (data_manager.py lines 52-93):
after the ensure-session block, `final_email` is
`account_email or db_sess.account_email` (line 70); after the ensure-chat
block the message row is inserted with `chat_id := db_chat.id` — always the
primary key of the chat row just found or created (lines 85-93).  Fresh
primary keys (uuid4 in the source) are passed in as `freshSessionId`,
`freshChatId`, `freshMsgId`. -/
def save_chat_message (db : DB)
    (freshSessionId freshChatId freshMsgId : String)
    (session_id chat_id role content : String)
    (image_url account_email : Option String) : DB :=
  let sessStep :=
    ensure_session db.sessions freshSessionId session_id account_email
  let final_email := pyOr account_email sessStep.2.account_email
  let chatStep := ensure_chat db.chats freshChatId chat_id session_id
    final_email
  let new_msg : MessageRow :=
    { id := freshMsgId, chat_id := chatStep.2.id, role := role,
      content := content, image_url := image_url }
  { sessions := sessStep.1, chats := chatStep.1,
    messages := db.messages ++ [new_msg] }

/-- Embedding of DataManager.update_chat_id (data_manager.py lines 95-131).
Equal identifiers: no-op (lines 97-98).  The old chat row is looked up by
`chat_id == old or id == old`; absent: no-op (lines 101-106).  If another row
already carries `chat_id == new_id` with a different primary key, every
message pointing at the old chat's primary key is re-pointed at the existing
chat's primary key and the old chat row is deleted (lines 113-125); if the
matching row is the old row itself nothing changes; if no row carries new_id
the old row's chat_id column is simply updated (lines 126-129). -/
def update_chat_id (db : DB) (old_id new_id : String) : DB :=
  if old_id == new_id then db
  else
    match db.chats.find? (fun c => c.chat_id == old_id || c.id == old_id) with
    | none => db
    | some old_chat =>
      match db.chats.find? (fun c => c.chat_id == new_id) with
      | some existing_chat =>
        if existing_chat.id != old_chat.id then
          { db with
            messages := db.messages.map (fun m =>
              if m.chat_id == old_chat.id then { m with chat_id := existing_chat.id }
              else m),
            chats := db.chats.filter (fun c => !(c.id == old_chat.id)) }
        else db
      | none =>
        { db with
          chats := db.chats.map (fun c =>
            if c.id == old_chat.id then { c with chat_id := new_id } else c) }

/-! ### Endpoint concurrency (main.py lines 190-272, api_main.py lines 100-108) -/

/-- Admission decision of api_main.py's chat_endpoint (lines 104-108): a busy
instance rejects the caller with HTTP 503; a missing handler yields HTTP 500;
otherwise the request proceeds into the single-handler turn. -/
inductive ApiAdmission where
  | rejected503
  | noBrowser500
  | accepted
  deriving Repr, DecidableEq

/-- The guard sequence at the top of api_main.py's chat_endpoint. -/
def chat_endpoint_admission (is_busy : Bool) (handler_ready : Bool) :
    ApiAdmission :=
  if is_busy then ApiAdmission.rejected503
  else if !handler_ready then ApiAdmission.noBrowser500
  else ApiAdmission.accepted

/-- State of the handler pool of main.py's chat_endpoint: handler ids sitting
in the asyncio.Queue, turns in flight as (caller, handler) pairs, and callers
suspended inside `handler_pool.get()`. -/
structure PoolState where
  free : List Nat
  running : List (Nat × Nat)
  waiting : List Nat
  deriving Repr, DecidableEq

/-- The pool as filled by the lifespan hook (main.py lines 50-59): N handlers,
no turns in flight, no waiters. -/
def initPool (n : Nat) : PoolState :=
  { free := List.range n, running := [], waiting := [] }

/-- One scheduler step of the pooled endpoint (main.py lines 190-272): a new
caller suspends in `handler_pool.get()`; a suspended caller acquires the
handler at the front of the queue when one is present; a finished turn — the
`finally` block runs on success and on every error path — puts its handler
back with `put_nowait`.  There is no transition that drops or rejects a
waiting caller. -/
inductive PoolStep : PoolState → PoolState → Prop where
  | arrive (s : PoolState) (c : Nat) :
      PoolStep s { s with waiting := s.waiting ++ [c] }
  | acquire (s : PoolState) (c h : Nat) (rest : List Nat) :
      s.free = h :: rest → c ∈ s.waiting →
      PoolStep s
        { free := rest, running := s.running ++ [(c, h)],
          waiting := s.waiting.erase c }
  | release (s : PoolState) (c h : Nat) (l₁ l₂ : List (Nat × Nat)) :
      s.running = l₁ ++ (c, h) :: l₂ →
      PoolStep s
        { free := s.free ++ [h], running := l₁ ++ l₂,
          waiting := s.waiting }

/-- States reachable from the freshly initialized pool of size n. -/
inductive PoolReach (n : Nat) : PoolState → Prop where
  | init : PoolReach n (initPool n)
  | step {s t : PoolState} : PoolReach n s → PoolStep s t → PoolReach n t

/-! ### Concrete pages, traces and databases used by witnesses and
counterexamples -/

/-- A stub page where only the generic `textarea` candidate is visible and the
input still holds the typed message after the Enter keypress (the commit was
not accepted); no send-affordance selector is visible. -/
def pgNotCleared : SendPage :=
  { visible := fun s => s == "textarea",
    valueAfterEnter := some "hello",
    fileInputPresent := false,
    fileExists := fun _ => false,
    uploadIndicatorAppears := false }

/-- A stub page where the input is cleared after the commit keypress. -/
def pgCleared : SendPage :=
  { visible := fun s => s == "textarea",
    valueAfterEnter := some "",
    fileInputPresent := false,
    fileExists := fun _ => false,
    uploadIndicatorAppears := false }

/-- A stub page on which no input candidate is visible at all. -/
def pgNoInput : SendPage :=
  { visible := fun _ => false,
    valueAfterEnter := none,
    fileInputPresent := false,
    fileExists := fun _ => false,
    uploadIndicatorAppears := false }

/-- A poll trace whose liveness indicator stays visible forever. -/
def genAlways : Nat → Bool := fun _ => true

/-- A poll trace whose liveness indicator is visible only at tick 0. -/
def genOnce : Nat → Bool := fun k => k == 0

/-- The empty extracted-text trace. -/
def txtEmpty : Nat → String := fun _ => ""

/-- A constant extracted-text trace. -/
def txtHi : Nat → String := fun _ => "Hi there"

/-- A bubble with no nested content child but with a markdown descendant whose
text differs from the bubble's full rendered text. -/
def bubbleNoContent : Bubble :=
  { innerText := "user echo AI reply",
    contentChild := none,
    markdownText := some "AI reply" }

/-- A DOM snapshot whose primary structural query yields exactly
`bubbleNoContent` and whose other queries yield nothing. -/
def qNoContent : String → List Bubble :=
  fun s => if s = primaryBubbleQuery then [bubbleNoContent] else []

/-- A stub page with a visible textarea, a present (hidden) file-upload input
and exactly one existing file on disk. -/
def pgUpload : SendPage :=
  { visible := fun s => s == "textarea",
    valueAfterEnter := some "",
    fileInputPresent := true,
    fileExists := fun p => p == "/tmp/img.png",
    uploadIndicatorAppears := true }

/-- A pool state reached from `initPool 2` after one caller arrived and
acquired the first handler. -/
def poolAfterAcquire : PoolState :=
  { free := [1], running := [(7, 0)], waiting := [] }

/-- A database with a temporary chat row, a permanent chat row already mapped
to the DeepSeek id, and one message attached to the temporary chat. -/
def dbMergeDemo : DB :=
  { sessions := [{ id := "s-row", session_id := "sess", account_email := none }],
    chats :=
      [{ id := "pk-temp", chat_id := "tmp-uuid", session_id := "sess",
         account_email := none, title := none },
       { id := "pk-perm", chat_id := "ds-id", session_id := "sess",
         account_email := none, title := none }],
    messages :=
      [{ id := "m1", chat_id := "pk-temp", role := "user", content := "hi",
         image_url := none }] }

/-! ## Helper lemmas -/

/-- A successful resolution splits the candidate list: everything probed before
the winner was skipped as falsy or found invisible, and the winner is visible. -/
theorem resolveFirst_some_split (visible : String → Bool) :
    ∀ (l : List String) (c : String), "" ∉ l → resolveFirst visible l = some c →
      visible c = true ∧ ∃ pre post, l = pre ++ c :: post ∧
        ∀ s ∈ pre, visible s = false := by
  intro l
  induction l with
  | nil => intro c _ h; simp [resolveFirst] at h
  | cons s rest ih =>
    intro c hne h
    have hs : ¬ s = "" := fun hs0 => hne (hs0 ▸ List.mem_cons_self s rest)
    rw [resolveFirst, if_neg hs] at h
    by_cases hv : visible s = true
    · rw [if_pos hv] at h
      obtain rfl : s = c := by injection h
      exact ⟨hv, [], rest, rfl, by intro t ht; simp at ht⟩
    · rw [if_neg hv] at h
      obtain ⟨hc, pre, post, hsplit, hpre⟩ :=
        ih c (fun hm => hne (List.mem_cons_of_mem s hm)) h
      refine ⟨hc, s :: pre, post, by rw [hsplit]; rfl, ?_⟩
      intro t ht
      rcases List.mem_cons.mp ht with rfl | ht'
      · exact Bool.not_eq_true _ ▸ (by simpa using hv)
      · exact hpre t ht'

/-- If no candidate is visible, resolution fails. -/
theorem resolveFirst_none (visible : String → Bool) :
    ∀ l : List String, (∀ s ∈ l, visible s = false) →
      resolveFirst visible l = none := by
  intro l
  induction l with
  | nil => intro _; rfl
  | cons s rest ih =>
    intro h
    rw [resolveFirst]
    by_cases hs : s = ""
    · rw [if_pos hs]; exact ih fun t ht => h t (List.mem_cons_of_mem s ht)
    · rw [if_neg hs, if_neg (by simp [h s (List.mem_cons_self s rest)])]
      exact ih fun t ht => h t (List.mem_cons_of_mem s ht)

/-- Resolution only looks at the snapshot's visibility of the candidates
themselves: two snapshots agreeing on the candidate list resolve alike. -/
theorem resolveFirst_congr :
    ∀ (l : List String) (v v' : String → Bool), (∀ s ∈ l, v s = v' s) →
      resolveFirst v l = resolveFirst v' l := by
  intro l
  induction l with
  | nil => intro v v' _; rfl
  | cons s rest ih =>
    intro v v' h
    rw [resolveFirst, resolveFirst,
      h s (List.mem_cons_self s rest),
      ih v v' fun t ht => h t (List.mem_cons_of_mem s ht)]

/-- Every exit of the polling loop happens within one poll interval of the
timeout budget, except the degenerate exit at the end of the 2 second grace
sleep when the budget is smaller than the grace period. -/
theorem waitLoop_elapsed (gen : Nat → Bool) (txt : Nat → String)
    (stability : Bool) (timeoutMs : Nat) :
    ∀ (fuel k : Nat) (last : String) (cnt : Nat),
      k = 0 ∨ (1 + k) * 1000 < timeoutMs →
      (waitLoop gen txt stability timeoutMs fuel k last cnt).2 * 1000 <
          timeoutMs + 1000 ∨
        (waitLoop gen txt stability timeoutMs fuel k last cnt).2 = 2 := by
  intro fuel
  induction fuel with
  | zero =>
    intro k last cnt hk
    rcases hk with rfl | hk
    · right; rfl
    · left; show (2 + k) * 1000 < timeoutMs + 1000; omega
  | succ fuel ih =>
    intro k last cnt hk
    rw [waitLoop]
    by_cases hcond : (2 + k) * 1000 < timeoutMs
    · rw [if_pos hcond]
      have hk1 : k + 1 = 0 ∨ (1 + (k + 1)) * 1000 < timeoutMs := by omega
      by_cases hg : gen k = true
      · rw [if_pos hg]; exact ih (k + 1) last cnt hk1
      · rw [if_neg hg]
        by_cases hst : stability = false
        · rw [if_pos hst]; left; show (2 + k) * 1000 < timeoutMs + 1000; omega
        · rw [if_neg hst]
          by_cases hstb : txt k ≠ "" ∧ txt k = last
          · rw [if_pos hstb]
            by_cases h2 : 2 ≤ cnt + 1
            · rw [if_pos h2]; left
              show (2 + k) * 1000 < timeoutMs + 1000; omega
            · rw [if_neg h2]; exact ih (k + 1) last (cnt + 1) hk1
          · rw [if_neg hstb]; exact ih (k + 1) (txt k) 0 hk1
    · rw [if_neg hcond]
      rcases hk with rfl | hk
      · right; rfl
      · left; show (2 + k) * 1000 < timeoutMs + 1000; omega

/-- With stability checking on, the loop declares completion only at a tick
whose liveness indicator is absent and whose non-empty extracted text equals
the text read at the previous stability evaluation — the closest earlier tick
with the indicator absent, every tick in between having shown the indicator. -/
theorem waitLoop_completed_stable (gen : Nat → Bool) (txt : Nat → String)
    (timeoutMs : Nat) :
    ∀ (fuel k : Nat) (last : String) (cnt : Nat) (e : Nat),
      cnt ≤ 1 →
      (cnt = 1 → last ≠ "" ∧ ∃ j, j < k ∧ gen j = false ∧ txt j = last ∧
          ∀ i, j < i → i < k → gen i = true) →
      waitLoop gen txt true timeoutMs fuel k last cnt = (WaitExit.completed, e) →
      ∃ kf, e = 2 + kf ∧ gen kf = false ∧ txt kf ≠ "" ∧
        ∃ j, j < kf ∧ gen j = false ∧ txt j = txt kf ∧
          ∀ i, j < i → i < kf → gen i = true := by
  intro fuel
  induction fuel with
  | zero => intro k last cnt e _ _ h; simp [waitLoop] at h
  | succ fuel ih =>
    intro k last cnt e hcnt hinv h
    rw [waitLoop] at h
    by_cases hcond : (2 + k) * 1000 < timeoutMs
    · rw [if_pos hcond] at h
      by_cases hg : gen k = true
      · rw [if_pos hg] at h
        refine ih (k + 1) last cnt e hcnt (fun hc1 => ?_) h
        obtain ⟨hl, j, hj, hgj, htj, hbetween⟩ := hinv hc1
        refine ⟨hl, j, by omega, hgj, htj, ?_⟩
        intro i hji hik
        by_cases hik' : i < k
        · exact hbetween i hji hik'
        · have : i = k := by omega
          exact this ▸ hg
      · rw [if_neg hg, if_neg (by simp)] at h
        by_cases hstb : txt k ≠ "" ∧ txt k = last
        · rw [if_pos hstb] at h
          by_cases h2 : 2 ≤ cnt + 1
          · rw [if_pos h2] at h
            have hc1 : cnt = 1 := by omega
            obtain ⟨hl, j, hj, hgj, htj, hbetween⟩ := hinv hc1
            have he : e = 2 + k := by
              simpa using congrArg Prod.snd h.symm
            refine ⟨k, he, by simpa using hg, hstb.1, j, hj, hgj, ?_,
              hbetween⟩
            rw [htj, hstb.2]
          · rw [if_neg h2] at h
            refine ih (k + 1) last (cnt + 1) e (by omega) (fun _ => ?_) h
            refine ⟨by rw [← hstb.2]; exact hstb.1, k, by omega,
              by simpa using hg, hstb.2, ?_⟩
            intro i h1 h2
            exfalso; omega
        · rw [if_neg hstb] at h
          exact ih (k + 1) (txt k) 0 e (by omega)
            (fun h01 => absurd h01 (by decide)) h
    · rw [if_neg hcond] at h
      simp at h

/-- With stability checking off, completion is only ever declared at a tick
whose liveness indicator is absent. -/
theorem waitLoop_completed_nostab (gen : Nat → Bool) (txt : Nat → String)
    (timeoutMs : Nat) :
    ∀ (fuel k : Nat) (last : String) (cnt : Nat) (e : Nat),
      waitLoop gen txt false timeoutMs fuel k last cnt = (WaitExit.completed, e) →
      ∃ kf, e = 2 + kf ∧ gen kf = false := by
  intro fuel
  induction fuel with
  | zero => intro k last cnt e h; simp [waitLoop] at h
  | succ fuel ih =>
    intro k last cnt e h
    rw [waitLoop] at h
    by_cases hcond : (2 + k) * 1000 < timeoutMs
    · rw [if_pos hcond] at h
      by_cases hg : gen k = true
      · rw [if_pos hg] at h
        exact ih (k + 1) last cnt e h
      · rw [if_neg hg, if_pos rfl] at h
        exact ⟨k, by simpa using congrArg Prod.snd h.symm, by simpa using hg⟩
    · rw [if_neg hcond] at h
      simp at h

/-- With stability checking off, the first tick with the liveness indicator
absent declares completion, provided it falls inside the timeout budget. -/
theorem waitLoop_first_absent_nostab (gen : Nat → Bool) (txt : Nat → String)
    (timeoutMs : Nat) :
    ∀ (fuel k : Nat) (last : String) (cnt : Nat) (kf : Nat),
      k ≤ kf → (∀ i, k ≤ i → i < kf → gen i = true) → gen kf = false →
      (2 + kf) * 1000 < timeoutMs → kf - k < fuel →
      waitLoop gen txt false timeoutMs fuel k last cnt =
        (WaitExit.completed, 2 + kf) := by
  intro fuel
  induction fuel with
  | zero => intro k last cnt kf _ _ _ _ hfuel; omega
  | succ fuel ih =>
    intro k last cnt kf hkkf hbefore hkf htm hfuel
    rw [waitLoop]
    have hcond : (2 + k) * 1000 < timeoutMs := by
      have : (2 + k) * 1000 ≤ (2 + kf) * 1000 := by
        apply Nat.mul_le_mul_right; omega
      omega
    rw [if_pos hcond]
    by_cases hkeq : k = kf
    · subst hkeq
      rw [if_neg (by simp [hkf]), if_pos rfl]
    · have hklt : k < kf := by omega
      rw [if_pos (hbefore k le_rfl hklt)]
      exact ih (k + 1) last cnt kf (by omega)
        (fun i hi1 hi2 => hbefore i (by omega) hi2) hkf htm (by omega)

/-- The per-bubble extraction steps of get_latest_response (lines 203-218)
produce exactly `bubbleExtract`. -/
theorem get_latest_response_last (q : String → List Bubble) (b : Bubble)
    (h : (if (q primaryBubbleQuery).isEmpty then
        firstNonEmptyQuery q alternative_containers
      else q primaryBubbleQuery).getLast? = some b) :
    get_latest_response q = some (bubbleExtract b) := by
  rw [get_latest_response]
  rw [h]
  rcases hc : b.contentChild with - | content
  · rcases hm : b.markdownText with - | m
    · simp [bubbleExtract, hc, hm]
    · simp [bubbleExtract, hc, hm]
  · rcases hm : content.markdownText with - | m
    · simp [bubbleExtract, hc, hm]
    · simp [bubbleExtract, hc, hm]

/-- The alternative-container loop keeps the first non-empty query result. -/
theorem firstNonEmptyQuery_split (q : String → List Bubble) :
    ∀ (pre : List String) (s : String) (post : List String),
      (∀ p ∈ pre, q p = []) → q s ≠ [] →
      firstNonEmptyQuery q (pre ++ s :: post) = q s := by
  intro pre
  induction pre with
  | nil =>
    intro s post _ hs
    rw [List.nil_append, firstNonEmptyQuery]
    simp [List.isEmpty_iff, hs]
  | cons p rest ih =>
    intro s post hpre hs
    rw [List.cons_append, firstNonEmptyQuery]
    simp only [hpre p (List.mem_cons_self p rest), List.isEmpty_nil, if_pos]
    exact ih s post (fun t ht => hpre t (List.mem_cons_of_mem p ht)) hs

/-- If every query in the list is empty, the alternative-container loop
returns the empty bubble list. -/
theorem firstNonEmptyQuery_nil (q : String → List Bubble) :
    ∀ l : List String, (∀ s ∈ l, q s = []) → firstNonEmptyQuery q l = [] := by
  intro l
  induction l with
  | nil => intro _; rfl
  | cons s rest ih =>
    intro h
    rw [firstNonEmptyQuery]
    simp only [h s (List.mem_cons_self s rest), List.isEmpty_nil, if_pos]
    exact ih fun t ht => h t (List.mem_cons_of_mem s ht)

/-- If some query in the list is non-empty, so is the loop's result. -/
theorem firstNonEmptyQuery_ne (q : String → List Bubble) :
    ∀ (l : List String) (s : String), s ∈ l → q s ≠ [] →
      firstNonEmptyQuery q l ≠ [] := by
  intro l
  induction l with
  | nil => intro s hs; simp at hs
  | cons t rest ih =>
    intro s hs hq
    rw [firstNonEmptyQuery]
    by_cases ht : (q t).isEmpty
    · rw [if_pos ht]
      rcases List.mem_cons.mp hs with rfl | hs'
      · exact absurd (List.isEmpty_iff.mp ht) hq
      · exact ih s hs' hq
    · rw [if_neg ht]
      exact fun h0 => ht (h0 ▸ List.isEmpty_nil)

/-- One pool transition preserves the multiset of handlers held jointly by
the free queue and the in-flight turns. -/
theorem pool_handlers_perm_step (n : Nat) (s t : PoolState)
    (hstep : PoolStep s t)
    (ih : (s.free ++ s.running.map Prod.snd).Perm (List.range n)) :
    (t.free ++ t.running.map Prod.snd).Perm (List.range n) := by
  cases hstep with
  | arrive c => simpa using ih
  | acquire c h rest hfree hc =>
    simp only [List.map_append, List.map_cons, List.map_nil]
    have e1 : rest ++ (s.running.map Prod.snd ++ [h]) =
        (rest ++ s.running.map Prod.snd) ++ [h] :=
      (List.append_assoc rest (s.running.map Prod.snd) [h]).symm
    rw [e1]
    refine List.Perm.trans
      (List.perm_append_singleton h (rest ++ s.running.map Prod.snd)) ?_
    have e2 : h :: (rest ++ s.running.map Prod.snd) =
        (h :: rest) ++ s.running.map Prod.snd := rfl
    rw [e2, ← hfree]
    exact ih
  | release c h l₁ l₂ hsplit =>
    rw [hsplit] at ih
    simp only [List.map_append, List.map_cons] at ih
    have hmid : (h :: (l₁.map Prod.snd ++ l₂.map Prod.snd)).Perm
        (l₁.map Prod.snd ++ h :: l₂.map Prod.snd) :=
      List.perm_middle.symm
    have e3 : (s.free ++ [h]) ++ (l₁ ++ l₂).map Prod.snd =
        s.free ++ (h :: (l₁.map Prod.snd ++ l₂.map Prod.snd)) := by
      rw [List.append_assoc, List.map_append]; rfl
    show ((s.free ++ [h]) ++ (l₁ ++ l₂).map Prod.snd).Perm (List.range n)
    rw [e3]
    exact (List.Perm.append_left s.free hmid).trans ih

/-- The handlers of the pool, free plus in-flight, form a permutation of the
initial pool contents in every reachable state. -/
theorem pool_handlers_perm (n : Nat) :
    ∀ s : PoolState, PoolReach n s →
      (s.free ++ s.running.map Prod.snd).Perm (List.range n) := by
  intro s hreach
  induction hreach with
  | init => simp [initPool]
  | step hr hstep ih => exact pool_handlers_perm_step n _ _ hstep ih

/-! ## Claims -/

/-- C1 (counterexample): against a page whose liveness indicator stays visible
for the whole budget, wait_for_response with a 5000 ms timeout exhausts the
budget (exit kind timedOut) and yet returns `true` — not `false` as the claim
states: both loop exits flow into the final `return True` of the source. -/
theorem C1_timeout_counterexample :
    (wait_for_response genAlways txtEmpty 5000 true).exitKind =
        WaitExit.timedOut ∧
      (wait_for_response genAlways txtEmpty 5000 true).retval = true ∧
      (wait_for_response genAlways txtEmpty 5000 true).elapsedS = 5 := by
  decide

/-- C1 (amended): for every poll trace, timeout and stability setting, if the
elapsed time exceeds the timeout before completion is detected the call stops
polling and returns `true` (not `false`); it returns no later than the timeout
plus one poll interval, except that it never returns before the 2 second grace
sleep, so a budget smaller than the grace period still takes 2 seconds. -/
theorem C1_timeout_stops_polling_returns_true (gen : Nat → Bool)
    (txt : Nat → String) (timeoutMs : Nat) (stability : Bool) :
    (wait_for_response gen txt timeoutMs stability).retval = true ∧
      ((wait_for_response gen txt timeoutMs stability).elapsedS * 1000 <
          timeoutMs + 1000 ∨
        (wait_for_response gen txt timeoutMs stability).elapsedS = 2) := by
  refine ⟨rfl, ?_⟩
  have h := waitLoop_elapsed gen txt stability timeoutMs timeoutMs 0 "" 0
    (Or.inl rfl)
  exact h

/-- C2 (counterexample): against a stub page where the input still holds the
typed text after the commit keypress and no send-affordance selector resolves,
send_message returns `true` — not `false` as the claim states: the source
prints a success message and returns True whenever an input was resolved,
whether or not any acceptance signal was observed. -/
theorem C2_no_acceptance_counterexample :
    (send_message pgNotCleared "hello" none).ok = true ∧
      pgNotCleared.valueAfterEnter = some "hello" ∧
      resolveSend pgNotCleared.visible send_selectors = none := by
  decide

/-- C2 (amended): send_message returns `true` exactly when some input
candidate resolved; acceptance signals (input cleared, fallback click) do not
influence the returned value, and ordinary UI-variance failures yield the
boolean `false` rather than an exception (the embedding is a total
function). -/
theorem C2_send_true_iff_input_resolved (pg : SendPage) (m : String)
    (img : Option String) :
    (send_message pg m img).ok = true ↔
      (resolveFirst pg.visible input_selectors).isSome = true := by
  rcases h : resolveFirst pg.visible input_selectors with - | c
  · simp [send_message, h]
  · simp [send_message, h]

/-- C2 witness: a cleared-input stub page accepts `hello`. -/
theorem C2_send_true_iff_input_resolved_witness :
    (send_message pgCleared "hello" none).ok = true :=
  (C2_send_true_iff_input_resolved pgCleared "hello" none).mpr (by decide)

/-- C3: with stability checking enabled (the default), completion is declared
only at a tick whose liveness indicator is absent and whose extracted text is
non-empty and byte-identical to the text of the previous stability evaluation
— the two ticks are consecutive among the ticks with the indicator absent
(every tick strictly between them showed the indicator), which is how the
source's `stable_count` reaching 2 reads "two consecutive stable ticks"; with
stability checking disabled, completion is declared exactly at the first tick
with the indicator absent (a single observed absence suffices), provided it
falls inside the timeout budget. -/
theorem C3_completion_requires_stable_text :
    (∀ (gen : Nat → Bool) (txt : Nat → String) (timeoutMs : Nat),
      (wait_for_response gen txt timeoutMs true).exitKind =
          WaitExit.completed →
        ∃ kf, (wait_for_response gen txt timeoutMs true).elapsedS = 2 + kf ∧
          gen kf = false ∧ txt kf ≠ "" ∧
          ∃ j, j < kf ∧ gen j = false ∧ txt j = txt kf ∧
            ∀ i, j < i → i < kf → gen i = true) ∧
    (∀ (gen : Nat → Bool) (txt : Nat → String) (timeoutMs : Nat),
      (wait_for_response gen txt timeoutMs false).exitKind =
          WaitExit.completed →
        ∃ kf, (wait_for_response gen txt timeoutMs false).elapsedS = 2 + kf ∧
          gen kf = false) ∧
    (∀ (gen : Nat → Bool) (txt : Nat → String) (timeoutMs kf : Nat),
      (∀ i, i < kf → gen i = true) → gen kf = false →
      (2 + kf) * 1000 < timeoutMs →
      wait_for_response gen txt timeoutMs false =
        { retval := true, exitKind := WaitExit.completed,
          elapsedS := 2 + kf }) := by
  refine ⟨?_, ?_, ?_⟩
  · intro gen txt timeoutMs h
    have he : waitLoop gen txt true timeoutMs timeoutMs 0 "" 0 =
        (WaitExit.completed,
          (waitLoop gen txt true timeoutMs timeoutMs 0 "" 0).2) := by
      have h1 : (waitLoop gen txt true timeoutMs timeoutMs 0 "" 0).1 =
          WaitExit.completed := h
      rw [← h1]
    obtain ⟨kf, hkf, hg, ht, hj⟩ := waitLoop_completed_stable gen txt
      timeoutMs timeoutMs 0 "" 0 _ (by omega)
      (fun h01 => absurd h01 (by decide)) he
    exact ⟨kf, hkf, hg, ht, hj⟩
  · intro gen txt timeoutMs h
    have he : waitLoop gen txt false timeoutMs timeoutMs 0 "" 0 =
        (WaitExit.completed,
          (waitLoop gen txt false timeoutMs timeoutMs 0 "" 0).2) := by
      have h1 : (waitLoop gen txt false timeoutMs timeoutMs 0 "" 0).1 =
          WaitExit.completed := h
      rw [← h1]
    exact waitLoop_completed_nostab gen txt timeoutMs timeoutMs 0 "" 0 _ he
  · intro gen txt timeoutMs kf hbefore hkf htm
    have hfuel : kf - 0 < timeoutMs := by omega
    have h := waitLoop_first_absent_nostab gen txt timeoutMs timeoutMs 0 ""
      0 kf (Nat.zero_le kf) (fun i _ hi => hbefore i hi) hkf htm hfuel
    rw [wait_for_response, h]

/-- C3 witness: a trace generating only at tick 0 with constant text
completes, with stability off, at the first absent tick (elapsed 3 s). -/
theorem C3_completion_requires_stable_text_witness :
    wait_for_response genOnce txtHi 120000 false =
      { retval := true, exitKind := WaitExit.completed, elapsedS := 3 } :=
  C3_completion_requires_stable_text.2.2 genOnce txtHi 120000 1
    (fun i hi => by
      have hi0 : i = 0 := by omega
      subst hi0; decide)
    (by decide) (by decide)

/-- C4: the selector resolution inside send_message probes the input
candidates strictly in list order (every candidate before the winner was found
invisible) and picks the first visible one; the result depends only on the
snapshot's visibility of the candidates, hence is deterministic for a fixed
DOM snapshot; and if no candidate is visible, resolution fails and
send_message returns false (InputNotFound, source line 55). -/
theorem C4_resolver_first_visible_in_order :
    (∀ (visible : String → Bool) (c : String),
      resolveFirst visible input_selectors = some c →
        visible c = true ∧ ∃ pre post, input_selectors = pre ++ c :: post ∧
          ∀ s ∈ pre, visible s = false) ∧
    (∀ v v' : String → Bool, (∀ s ∈ input_selectors, v s = v' s) →
      resolveFirst v input_selectors = resolveFirst v' input_selectors) ∧
    (∀ (pg : SendPage) (m : String) (img : Option String),
      (∀ s ∈ input_selectors, pg.visible s = false) →
        resolveFirst pg.visible input_selectors = none ∧
          (send_message pg m img).ok = false) := by
  refine ⟨?_, ?_, ?_⟩
  · intro visible c h
    exact resolveFirst_some_split visible input_selectors c (by decide) h
  · intro v v' h
    exact resolveFirst_congr input_selectors v v' h
  · intro pg m img h
    have hnone := resolveFirst_none pg.visible input_selectors h
    exact ⟨hnone, by simp [send_message, hnone]⟩

/-- C4 witness: on a page with no visible input candidate, resolution fails
and send_message reports failure. -/
theorem C4_resolver_first_visible_in_order_witness :
    resolveFirst pgNoInput.visible input_selectors = none ∧
      (send_message pgNoInput "hello" none).ok = false :=
  C4_resolver_first_visible_in_order.2.2 pgNoInput "hello" none
    (fun _ _ => rfl)

/-- C5 (counterexample): a last bubble with no nested content child but with a
markdown descendant makes get_latest_response return the markdown descendant's
text, not the bubble's own full text as step (4) of the claim states — the
source tries `.ds-markdown.ds-markdown--block` on the bubble (lines 214-216)
before falling back to the bubble's own text (line 218). -/
theorem C5_fallback_counterexample :
    bubbleNoContent.contentChild = none ∧
      get_latest_response qNoContent = some "AI reply" ∧
      get_latest_response qNoContent ≠
        some (pyStrip bubbleNoContent.innerText) := by
  decide

/-- C5 (amended): get_latest_response (1) takes the last bubble of the primary
structural query, never consulting the alternatives when it is non-empty (the
result depends only on the primary query then); (2) only if the primary query
is empty does it use the first alternative query, in order, yielding at least
one match; (3) within the chosen last bubble it prefers the nested content
sub-path, returning the markdown descendant's text inside it if present and
its text otherwise; (4) if no nested match exists it first tries a markdown
descendant of the bubble itself and only failing that falls back to the
bubble's own full text. -/
theorem C5_extraction_priority_order :
    (∀ q q' : String → List Bubble, q primaryBubbleQuery ≠ [] →
      q primaryBubbleQuery = q' primaryBubbleQuery →
      get_latest_response q = get_latest_response q') ∧
    (∀ (q : String → List Bubble) (b : Bubble),
      (q primaryBubbleQuery).getLast? = some b →
      get_latest_response q = some (bubbleExtract b)) ∧
    (∀ (q : String → List Bubble) (pre : List String) (s : String)
        (post : List String) (b : Bubble),
      q primaryBubbleQuery = [] →
      alternative_containers = pre ++ s :: post →
      (∀ p ∈ pre, q p = []) →
      (q s).getLast? = some b →
      get_latest_response q = some (bubbleExtract b)) ∧
    (∀ (b : Bubble) (content : ContentNode), b.contentChild = some content →
      bubbleExtract b = pyStrip (content.markdownText.getD content.innerText)) ∧
    (∀ b : Bubble, b.contentChild = none → b.markdownText = none →
      bubbleExtract b = pyStrip b.innerText) := by
  refine ⟨?_, ?_, ?_, ?_, ?_⟩
  · intro q q' hne heq
    have hcond : ¬ ((q' primaryBubbleQuery).isEmpty = true) := by
      simpa [List.isEmpty_iff] using (heq ▸ hne)
    rw [get_latest_response, get_latest_response, heq, if_neg hcond, if_neg hcond]
  · intro q b h
    have hne : q primaryBubbleQuery ≠ [] := by
      intro h0; rw [h0] at h; simp at h
    apply get_latest_response_last
    rwa [if_neg (by simpa [List.isEmpty_iff] using hne)]
  · intro q pre s post b hprim hsplit hpre h
    have hqs : q s ≠ [] := by
      intro h0; rw [h0] at h; simp at h
    apply get_latest_response_last
    rw [if_pos (by simp [hprim]), hsplit,
      firstNonEmptyQuery_split q pre s post hpre hqs]
    exact h
  · intro b content hc
    rw [bubbleExtract, hc]
  · intro b hc hm
    rw [bubbleExtract, hc, hm]
    rfl

/-- C5 witness: the amended extraction applied to the concrete snapshot whose
last (and only) primary bubble has no content child but a markdown
descendant. -/
theorem C5_extraction_priority_order_witness :
    get_latest_response qNoContent = some (bubbleExtract bubbleNoContent) :=
  C5_extraction_priority_order.2.1 qNoContent bubbleNoContent (by decide)

/-- C6: get_latest_response returns none exactly when no container matches at
all — the primary structural query and every alternative container query come
back empty; in particular it never raises (it is a total function into
`Option String`, mirroring the source's catch-all that converts any error
into None). -/
theorem C6_extractor_none_iff_no_container (q : String → List Bubble) :
    get_latest_response q = none ↔
      (q primaryBubbleQuery = [] ∧ ∀ s ∈ alternative_containers, q s = []) := by
  constructor
  · intro h
    by_cases hprim : q primaryBubbleQuery = []
    · refine ⟨hprim, ?_⟩
      by_contra hex
      push_neg at hex
      obtain ⟨s, hs, hqs⟩ := hex
      have hne := firstNonEmptyQuery_ne q alternative_containers s hs hqs
      obtain ⟨b, hb⟩ := Option.ne_none_iff_exists.mp
        (fun h0 => hne (List.getLast?_eq_none_iff.mp h0))
      rw [get_latest_response_last q b (by
        rw [if_pos (by simp [hprim])]; exact hb.symm)] at h
      simp at h
    · obtain ⟨b, hb⟩ := Option.ne_none_iff_exists.mp
        (fun h0 => hprim (List.getLast?_eq_none_iff.mp h0))
      rw [get_latest_response_last q b (by
        rw [if_neg (by simpa [List.isEmpty_iff] using hprim)]
        exact hb.symm)] at h
      simp at h
  · intro ⟨hprim, halt⟩
    rw [get_latest_response]
    rw [if_pos (by simp [hprim]), firstNonEmptyQuery_nil q _ halt]
    rfl

/-- C7 (counterexample): a whitespace-only message (empty after stripping) is
still typed and submitted by send_message, which returns true — the claim's
"a submission whose text is empty after trimming is not sent" fails on the
code: send_message performs no text validation at all. -/
theorem C7_empty_text_counterexample :
    pyStrip " " = "" ∧
      (send_message pgCleared " " none).ok = true ∧
      (send_message pgCleared " " none).typed = some " " := by
  decide

/-- C7 (amended): the attachment half of the invariant holds — the upload step
runs only if `os.path.exists` succeeds on the attachment path in the very same
call, immediately before upload (nothing is cached) — but text non-emptiness
is enforced only by the CLI input loop, which never submits a line that strips
to empty; send_message itself types and submits any text, empty after
stripping or not, and reports success whenever an input candidate resolved. -/
theorem C7_submission_invariant_amended :
    (∀ (pg : SendPage) (m p : String),
      (send_message pg m (some p)).uploaded = true →
        pg.fileExists p = true) ∧
    (∀ (pg : SendPage) (m : String) (img : Option String) (c : String),
      resolveFirst pg.visible input_selectors = some c →
        (send_message pg m img).ok = true ∧
          (send_message pg m img).typed = some m) ∧
    (∀ raw m : String, cliSubmits raw = some m →
      m = pyStrip raw ∧ m ≠ "") := by
  refine ⟨?_, ?_, ?_⟩
  · intro pg m p h
    rcases hr : resolveFirst pg.visible input_selectors with - | c
    · simp [send_message, hr] at h
    · simp only [send_message, hr, Bool.and_eq_true] at h
      exact h.1
  · intro pg m img c h
    simp [send_message, h]
  · intro raw m h
    rw [cliSubmits] at h
    by_cases hexit : pyLower (pyStrip raw) = "exit" ∨
        pyLower (pyStrip raw) = "quit" ∨ pyLower (pyStrip raw) = "keluar"
    · rw [if_pos hexit] at h; exact absurd h (by simp)
    · rw [if_neg hexit] at h
      by_cases hempty : pyStrip raw = ""
      · rw [if_pos hempty] at h; exact absurd h (by simp)
      · rw [if_neg hempty] at h
        have hm : m = pyStrip raw := by injection h with h'; exact h'.symm
        exact ⟨hm, hm ▸ hempty⟩

/-- C7 witness: a concrete upload call proves the existence check, a concrete
whitespace message is reported sent, and a concrete CLI line strips to a
non-empty submitted message. -/
theorem C7_submission_invariant_amended_witness :
    pgUpload.fileExists "/tmp/img.png" = true ∧
      (send_message pgCleared " " none).typed = some " " ∧
      ("hello" : String) ≠ "" :=
  ⟨C7_submission_invariant_amended.1 pgUpload "hi" "/tmp/img.png" (by decide),
   (C7_submission_invariant_amended.2.1 pgCleared " " none "textarea"
     (by decide)).2,
   (C7_submission_invariant_amended.2.2 " hello " "hello" (by decide)).2⟩

/-- C8: the merge-on-identifier-collision strategy of update_chat_id is the
deterministic function proved here: equal identifiers leave the database
unchanged; when new_id is already mapped to a chat row with a different
primary key, every message pointing at the old chat's primary key is
re-pointed at the existing chat's primary key (all other messages untouched),
the old chat row is deleted and no other chat row changes; otherwise the old
chat row's chat_id column is simply updated to new_id and messages are
untouched. -/
theorem C8_update_chat_id_merge :
    (∀ (db : DB) (i : String), update_chat_id db i i = db) ∧
    (∀ (db : DB) (old_id new_id : String) (oc e : ChatRow),
      old_id ≠ new_id →
      db.chats.find? (fun c => c.chat_id == old_id || c.id == old_id) =
        some oc →
      db.chats.find? (fun c => c.chat_id == new_id) = some e →
      e.id ≠ oc.id →
      (∀ m ∈ db.messages, m.chat_id = oc.id →
          ({ m with chat_id := e.id } : MessageRow) ∈
            (update_chat_id db old_id new_id).messages) ∧
        (∀ m ∈ db.messages, m.chat_id ≠ oc.id →
          m ∈ (update_chat_id db old_id new_id).messages) ∧
        (∀ c : ChatRow, c ∈ (update_chat_id db old_id new_id).chats ↔
          (c ∈ db.chats ∧ c.id ≠ oc.id))) ∧
    (∀ (db : DB) (old_id new_id : String) (oc : ChatRow),
      old_id ≠ new_id →
      db.chats.find? (fun c => c.chat_id == old_id || c.id == old_id) =
        some oc →
      db.chats.find? (fun c => c.chat_id == new_id) = none →
      (update_chat_id db old_id new_id).messages = db.messages ∧
        ({ oc with chat_id := new_id } : ChatRow) ∈
          (update_chat_id db old_id new_id).chats ∧
        (∀ c ∈ db.chats, c.id ≠ oc.id →
          c ∈ (update_chat_id db old_id new_id).chats)) := by
  refine ⟨?_, ?_, ?_⟩
  · intro db i
    rw [update_chat_id, if_pos (by simp)]
  · intro db old_id new_id oc e hne hfo hfn hid
    rw [update_chat_id, if_neg (by simpa using hne), hfo, hfn]
    dsimp only
    rw [if_pos (show (e.id != oc.id) = true by simpa using hid)]
    refine ⟨?_, ?_, ?_⟩
    · intro m hm hmc
      have := List.mem_map_of_mem (fun m : MessageRow =>
        if m.chat_id == oc.id then { m with chat_id := e.id } else m) hm
      simpa [hmc] using this
    · intro m hm hmc
      have := List.mem_map_of_mem (fun m : MessageRow =>
        if m.chat_id == oc.id then { m with chat_id := e.id } else m) hm
      simpa [if_neg (by simpa using hmc)] using this
    · intro c
      constructor
      · intro hc
        have hc' := List.mem_filter.mp hc
        exact ⟨hc'.1, by simpa using hc'.2⟩
      · intro ⟨hc, hcid⟩
        exact List.mem_filter.mpr ⟨hc, by simpa using hcid⟩
  · intro db old_id new_id oc hne hfo hfn
    rw [update_chat_id, if_neg (by simpa using hne), hfo, hfn]
    dsimp only
    refine ⟨rfl, ?_, ?_⟩
    · have hmem := List.mem_of_find?_eq_some hfo
      have := List.mem_map_of_mem (fun c : ChatRow =>
        if c.id == oc.id then { c with chat_id := new_id } else c) hmem
      simpa using this
    · intro c hc hcid
      have := List.mem_map_of_mem (fun c : ChatRow =>
        if c.id == oc.id then { c with chat_id := new_id } else c) hc
      simpa [if_neg (by simpa using hcid)] using this

/-- C8 witness: merging the demo database's temporary chat into the permanent
one re-points its message and removes the temporary row. -/
theorem C8_update_chat_id_merge_witness :
    ({ id := "m1", chat_id := "pk-perm", role := "user", content := "hi",
        image_url := none } : MessageRow) ∈
      (update_chat_id dbMergeDemo "tmp-uuid" "ds-id").messages ∧
    ∀ c ∈ (update_chat_id dbMergeDemo "tmp-uuid" "ds-id").chats,
      c.id ≠ "pk-temp" := by
  have h := C8_update_chat_id_merge.2.1 dbMergeDemo "tmp-uuid" "ds-id"
    { id := "pk-temp", chat_id := "tmp-uuid", session_id := "sess",
      account_email := none, title := none }
    { id := "pk-perm", chat_id := "ds-id", session_id := "sess",
      account_email := none, title := none }
    (by decide) (by decide) (by decide) (by decide)
  refine ⟨?_, ?_⟩
  · exact h.1
      { id := "m1", chat_id := "pk-temp", role := "user", content := "hi",
        image_url := none } (by decide) rfl
  · intro c hc
    exact ((h.2.2 c).mp hc).2

/-- The ensure-session block returns a row that is in the updated table and
carries the requested session_id. -/
theorem ensure_session_mem (l : List SessionRow) (f sid : String)
    (acc : Option String) :
    (ensure_session l f sid acc).2 ∈ (ensure_session l f sid acc).1 ∧
      (ensure_session l f sid acc).2.session_id = sid := by
  rcases h : l.find? (fun s => s.session_id == sid) with - | s
  · simp [ensure_session, h]
  · have hsid : s.session_id = sid := by
      simpa using List.find?_some h
    simp only [ensure_session, h]
    by_cases hup : (truthyOpt acc && !truthyOpt s.account_email) = true
    · rw [if_pos hup]
      refine ⟨?_, hsid⟩
      have := List.mem_map_of_mem
        (fun (t : SessionRow) =>
          if t.id == s.id then { s with account_email := acc } else t)
        (List.mem_of_find?_eq_some h)
      simpa using this
    · rw [if_neg hup]
      exact ⟨List.mem_of_find?_eq_some h, hsid⟩

/-- The ensure-chat block returns a row that is in the updated table. -/
theorem ensure_chat_mem (l : List ChatRow) (f cid sid : String)
    (em : Option String) :
    (ensure_chat l f cid sid em).2 ∈ (ensure_chat l f cid sid em).1 := by
  rcases h : l.find? (fun c => c.chat_id == cid || c.id == cid) with - | c
  · simp only [ensure_chat, h]
    simp
  · simp only [ensure_chat, h]
    by_cases hup : (truthyOpt em && !truthyOpt c.account_email) = true
    · rw [if_pos hup]
      have := List.mem_map_of_mem
        (fun (t : ChatRow) =>
          if t.id == c.id then { c with account_email := em } else t)
        (List.mem_of_find?_eq_some h)
      simpa using this
    · rw [if_neg hup]
      exact List.mem_of_find?_eq_some h

/-- C9 (counterexample): in api_main.py a caller that finds the single
automaton instance busy is rejected with HTTP 503 at the chat endpoint — not
suspended until an instance is released, as the claim states holds for every
caller of the chat endpoint. -/
theorem C9_busy_caller_rejected_counterexample :
    chat_endpoint_admission true true = ApiAdmission.rejected503 ∧
      ApiAdmission.rejected503 ≠ ApiAdmission.accepted := by
  decide

/-- C9 (amended): for the pooled endpoint of main.py, in every reachable pool
state the free and in-flight handlers always account for exactly the N
initial instances, so at most N turns run concurrently and no handler serves
two turns at once; with no free instance, a waiting caller stays waiting
across every possible step (acquisition suspends, nothing rejects it).  The
alternative endpoint of api_main.py instead guards one instance with a busy
flag and rejects a caller with HTTP 503 whenever the flag is set. -/
theorem C9_pool_discipline_amended :
    (∀ (n : Nat) (s : PoolState), PoolReach n s →
      s.free.length + s.running.length = n ∧ s.running.length ≤ n ∧
        (s.running.map Prod.snd).Nodup) ∧
    (∀ (s t : PoolState) (c : Nat), s.free = [] → PoolStep s t →
      c ∈ s.waiting → c ∈ t.waiting) ∧
    (∀ ready : Bool,
      chat_endpoint_admission true ready = ApiAdmission.rejected503) := by
  refine ⟨?_, ?_, ?_⟩
  · intro n s hr
    have hperm := pool_handlers_perm n s hr
    have hlen := hperm.length_eq
    simp only [List.length_append, List.length_map, List.length_range] at hlen
    refine ⟨hlen, by omega, ?_⟩
    have hnodup : (s.free ++ s.running.map Prod.snd).Nodup :=
      hperm.nodup_iff.mpr (List.nodup_range n)
    exact hnodup.of_append_right
  · intro s t c hfree hstep hc
    cases hstep with
    | arrive c2 =>
      simp only [List.mem_append]
      exact Or.inl hc
    | acquire c2 h rest hfree2 hc2 =>
      rw [hfree] at hfree2
      exact absurd hfree2 (by simp)
    | release c2 h l₁ l₂ hsplit => exact hc
  · intro ready
    rfl

/-- C9 witness: from a pool of two handlers, after one caller arrives and
acquires a handler, the invariants hold in the reached state. -/
theorem C9_pool_discipline_amended_witness :
    poolAfterAcquire.free.length + poolAfterAcquire.running.length = 2 ∧
      poolAfterAcquire.running.length ≤ 2 ∧
      (poolAfterAcquire.running.map Prod.snd).Nodup := by
  have r1 : PoolReach 2
      { free := [0, 1], running := [], waiting := [7] } :=
    PoolReach.step PoolReach.init (PoolStep.arrive (initPool 2) 7)
  have r2 : PoolReach 2 poolAfterAcquire :=
    PoolReach.step r1
      (PoolStep.acquire { free := [0, 1], running := [], waiting := [7] }
        7 0 [1] rfl (by simp))
  exact C9_pool_discipline_amended.1 2 poolAfterAcquire r2

/-- C10: every call to save_chat_message appends exactly one message row
whose chat_id foreign key is the primary key of a chat row present in the
resulting database (the session and chat rows having been created and flushed
beforehand when missing), so every persisted message references an existing
chat record; the session row for the supplied session_id likewise exists
afterwards. -/
theorem C10_message_references_existing_chat (db : DB)
    (freshSessionId freshChatId freshMsgId session_id chat_id role
      content : String) (image_url account_email : Option String) :
    ∃ m : MessageRow,
      (save_chat_message db freshSessionId freshChatId freshMsgId session_id
          chat_id role content image_url account_email).messages =
        db.messages ++ [m] ∧
      m.role = role ∧ m.content = content ∧
      (∃ c ∈ (save_chat_message db freshSessionId freshChatId freshMsgId
          session_id chat_id role content image_url account_email).chats,
        c.id = m.chat_id) ∧
      (∃ s ∈ (save_chat_message db freshSessionId freshChatId freshMsgId
          session_id chat_id role content image_url account_email).sessions,
        s.session_id = session_id) := by
  refine ⟨_, rfl, rfl, rfl, ?_, ?_⟩
  · exact ⟨(ensure_chat db.chats freshChatId chat_id session_id
        (pyOr account_email
          (ensure_session db.sessions freshSessionId session_id
            account_email).2.account_email)).2,
      ensure_chat_mem db.chats freshChatId chat_id session_id _, rfl⟩
  · exact ⟨(ensure_session db.sessions freshSessionId session_id
        account_email).2,
      (ensure_session_mem db.sessions freshSessionId session_id
        account_email).1,
      (ensure_session_mem db.sessions freshSessionId session_id
        account_email).2⟩

end DeepSeekScrapper
